import Mathlib

/-!
Verification of the secure-task-manager repository: a shallow embedding of
the Express + SQLite backend (src/unnamed/part_000) and of the relevant part
of the browser client (src/app/public/script.js), with theorems settling the
spec claims about validation, CRUD behaviour, listing order and HTML escaping.
-/

namespace TaskManager

/-! ### Timestamps

The backend produces timestamps from two different sources:
SQLite fills `created_at` with `CURRENT_TIMESTAMP` (UTC, rendered as
"YYYY-MM-DD HH:MM:SS"), while the POST handler builds its response field
with JavaScript `new Date().toISOString()` ("YYYY-MM-DDTHH:MM:SS.sssZ").
Both renderings are modelled concretely over a broken-down UTC instant. -/

structure DateTime where
  year : Nat
  month : Nat
  day : Nat
  hour : Nat
  minute : Nat
  second : Nat
  ms : Nat
deriving DecidableEq, Repr

def pad2 (n : Nat) : String :=
  if n < 10 then "0" ++ toString n else toString n

def pad3 (n : Nat) : String :=
  if n < 10 then "00" ++ toString n
  else if n < 100 then "0" ++ toString n
  else toString n

def pad4 (n : Nat) : String :=
  if n < 10 then "000" ++ toString n
  else if n < 100 then "00" ++ toString n
  else if n < 1000 then "0" ++ toString n
  else toString n

/-- SQLite `CURRENT_TIMESTAMP` rendering: "YYYY-MM-DD HH:MM:SS"
(space between date and time, no fractional seconds, no zone suffix). -/
def sqliteTimestamp (t : DateTime) : String :=
  pad4 t.year ++ "-" ++ pad2 t.month ++ "-" ++ pad2 t.day ++ " " ++
    pad2 t.hour ++ ":" ++ pad2 t.minute ++ ":" ++ pad2 t.second

/-- JavaScript `Date.prototype.toISOString` rendering:
"YYYY-MM-DDTHH:MM:SS.sssZ". -/
def toISOString (t : DateTime) : String :=
  pad4 t.year ++ "-" ++ pad2 t.month ++ "-" ++ pad2 t.day ++ "T" ++
    pad2 t.hour ++ ":" ++ pad2 t.minute ++ ":" ++ pad2 t.second ++ "." ++
    pad3 t.ms ++ "Z"

/-! ### Data model

The `tasks` table (src/unnamed/part_000 lines 30-43):
`id INTEGER PRIMARY KEY AUTOINCREMENT`, `title TEXT NOT NULL`,
`completed BOOLEAN DEFAULT FALSE`, `created_at DATETIME DEFAULT
CURRENT_TIMESTAMP`.  A row is modelled with `created_at` kept as the stored
text, since SQLite stores `CURRENT_TIMESTAMP` as text and `ORDER BY`
compares that text bytewise. -/

structure Task where
  id : Nat
  title : String
  completed : Bool
  created_at : String
deriving DecidableEq, Repr

/-- The database state: rows in table (insertion) order plus the
AUTOINCREMENT counter, which starts at 1 and is never reused. -/
structure ServerState where
  rows : List Task
  nextId : Nat
deriving DecidableEq, Repr

def initialState : ServerState := { rows := [], nextId := 1 }

/-- The error classes the handlers produce:
400 invalid title (POST), 400 invalid task id (PUT/DELETE),
404 task not found (PUT/DELETE).  Database failures are out of scope. -/
inductive ApiError where
  | invalidTitle
  | invalidId
  | notFound
deriving DecidableEq, Repr

/-- Route results are handler outcomes; equality on them is decidable,
which lets the scenario theorems evaluate the handlers. -/
def exceptDecEq {ε α : Type} [DecidableEq ε] [DecidableEq α] :
    DecidableEq (Except ε α)
  | Except.error x, Except.error y =>
    if h : x = y then isTrue (h ▸ rfl)
    else isFalse (fun hc => h (by cases hc; rfl))
  | Except.ok x, Except.ok y =>
    if h : x = y then isTrue (h ▸ rfl)
    else isFalse (fun hc => h (by cases hc; rfl))
  | Except.error _, Except.ok _ => isFalse (fun hc => Except.noConfusion hc)
  | Except.ok _, Except.error _ => isFalse (fun hc => Except.noConfusion hc)

instance {ε α : Type} [DecidableEq ε] [DecidableEq α] :
    DecidableEq (Except ε α) := exceptDecEq

/-! ### Title validation (src/unnamed/part_000 lines 46-58) -/

/-- Does the first list start with the second one? -/
def startsWithL : List Char → List Char → Bool
  | _, [] => true
  | [], _ :: _ => false
  | a :: as, b :: bs => a == b && startsWithL as bs

/-- Does the first list contain the second one as a contiguous run? -/
def containsSub : List Char → List Char → Bool
  | [], needle => needle.isEmpty
  | a :: as, needle => startsWithL (a :: as) needle || containsSub as needle

/-- JavaScript `String.prototype.includes(sub)`: substring containment. -/
def includes (s sub : String) : Bool :=
  containsSub s.data sub.data

/-- `validateTaskTitle` (lines 46-58).  `none` models an absent or
non-string `title` (rejected by the `!title || typeof title !== 'string'`
check); an empty string is falsy in JavaScript, hence also rejected by
`!title`.  Note the length check runs on the raw title: the handler trims
only afterwards (line 80). -/
def validateTaskTitle : Option String → Bool
  | none => false
  | some title =>
    if title = "" then false
    else if title.length < 1 ∨ title.length > 200 then false
    else if includes title "<script" = true ∨ includes title "javascript:" = true then false
    else true

/-- The whitespace characters removed by JavaScript
`String.prototype.trim` (ASCII whitespace plus NBSP and BOM; the full
ECMA-262 set also has Unicode space separators, which no claim uses). -/
def isJsWhitespace (c : Char) : Bool :=
  c = ' ' || c = Char.ofNat 9 || c = Char.ofNat 10 || c = Char.ofNat 11 ||
    c = Char.ofNat 12 || c = Char.ofNat 13 || c = Char.ofNat 160 ||
    c = Char.ofNat 65279

/-- JavaScript `String.prototype.trim`: drop leading and trailing
whitespace (`title.trim()`, line 80). -/
def jsTrim (s : String) : String :=
  String.mk (((s.data.dropWhile isJsWhitespace).reverse.dropWhile
    isJsWhitespace).reverse)

/-! ### The four routes -/

/-- SQLite BINARY collation: lexicographic comparison of the stored text
(codepoint by codepoint; identical to bytewise order on these ASCII
timestamps).  `leL x y` means `x` sorts no later than `y`. -/
def leL : List Char → List Char → Bool
  | [], _ => true
  | _ :: _, [] => false
  | a :: as, b :: bs =>
    if a.toNat < b.toNat then true
    else if b.toNat < a.toNat then false
    else leL as bs

theorem leL_total : ∀ x y : List Char, leL x y = true ∨ leL y x = true
  | [], _ => Or.inl rfl
  | _ :: _, [] => Or.inr rfl
  | a :: as, b :: bs => by
    simp only [leL]
    rcases Nat.lt_trichotomy a.toNat b.toNat with h | h | h
    · left; rw [if_pos h]
    · have h1 : ¬ a.toNat < b.toNat := by omega
      have h2 : ¬ b.toNat < a.toNat := by omega
      rw [if_neg h1, if_neg h2, if_neg h2, if_neg h1]
      exact leL_total as bs
    · right; rw [if_pos h]

theorem leL_trans : ∀ x y z : List Char,
    leL x y = true → leL y z = true → leL x z = true
  | [], _, _ => fun _ _ => rfl
  | a :: as, b :: bs, [] => by
    intro _ h2; simp only [leL] at h2
    exact Bool.noConfusion h2
  | a :: as, [], _ => by
    intro h1 _; simp only [leL] at h1
    exact Bool.noConfusion h1
  | a :: as, b :: bs, c :: cs => by
    intro h1 h2
    simp only [leL] at h1 h2 ⊢
    split_ifs at h1 h2 ⊢ with hab hba hbc hcb hac hca
    all_goals first
      | rfl
      | omega
      | (exact leL_trans as bs cs h1 h2)

/-- `ORDER BY created_at DESC` sorts rows by the stored `created_at` text,
descending; the query names no further sort key, so rows with equal
`created_at` are not reordered relative to table order (modelled as a
stable sort). -/
def byCreatedAtDesc (a b : Task) : Prop :=
  leL b.created_at.data a.created_at.data = true

instance : DecidableRel byCreatedAtDesc :=
  fun _ _ => inferInstanceAs (Decidable (_ = true))

instance : IsTotal Task byCreatedAtDesc :=
  ⟨fun a b => (leL_total b.created_at.data a.created_at.data).elim Or.inl Or.inr⟩

instance : IsTrans Task byCreatedAtDesc :=
  ⟨fun _ _ _ h1 h2 => leL_trans _ _ _ h2 h1⟩

/-- `GET /api/tasks` (lines 61-69): `SELECT * FROM tasks ORDER BY
created_at DESC`. -/
def listTasks (st : ServerState) : List Task :=
  List.insertionSort byCreatedAtDesc st.rows

/-- `POST /api/tasks` (lines 71-94).  `tdb` is the instant at which SQLite
evaluates `CURRENT_TIMESTAMP` for the inserted row, `tjs` the instant at
which the handler evaluates `new Date()` for the response body;
`this.lastID` is the fresh AUTOINCREMENT id. -/
def create (st : ServerState) (title : Option String) (tdb tjs : DateTime) :
    Except ApiError Task × ServerState :=
  match title with
  | none => (Except.error ApiError.invalidTitle, st)
  | some t =>
    if validateTaskTitle (some t) then
      let sanitizedTitle := jsTrim t
      (Except.ok { id := st.nextId, title := sanitizedTitle,
                   completed := false, created_at := toISOString tjs },
       { rows := st.rows ++ [{ id := st.nextId, title := sanitizedTitle,
                               completed := false,
                               created_at := sqliteTimestamp tdb }],
         nextId := st.nextId + 1 })
    else (Except.error ApiError.invalidTitle, st)

/-- The id-format check `/^\d+$/.test(id)` (lines 100, 120): a non-empty
string of decimal digits only. -/
def isDigitString (s : String) : Bool :=
  !s.data.isEmpty && s.data.all Char.isDigit

/-- SQLite INTEGER affinity converts the bound text parameter of
`WHERE id = ?` to the integer it spells (decimal digits only here). -/
def parseId (s : String) : Nat :=
  s.data.foldl (fun acc c => acc * 10 + (c.toNat - 48)) 0

/-- `PUT /api/tasks/:id/toggle` (lines 96-114): after the format check,
`UPDATE tasks SET completed = NOT completed WHERE id = ?`; `this.changes`
counts the matched rows and 0 changes yields 404. -/
def toggle (st : ServerState) (idStr : String) :
    Except ApiError Unit × ServerState :=
  if isDigitString idStr = true then
    if (st.rows.filter (fun r => r.id == parseId idStr)).length = 0 then
      (Except.error ApiError.notFound, st)
    else
      (Except.ok (),
       { st with rows := st.rows.map (fun r =>
           if r.id == parseId idStr then { r with completed := !r.completed }
           else r) })
  else (Except.error ApiError.invalidId, st)

/-- `DELETE /api/tasks/:id` (lines 116-134): after the format check,
`DELETE FROM tasks WHERE id = ?`; 0 changes yields 404. -/
def deleteTask (st : ServerState) (idStr : String) :
    Except ApiError Unit × ServerState :=
  if isDigitString idStr = true then
    if (st.rows.filter (fun r => r.id == parseId idStr)).length = 0 then
      (Except.error ApiError.notFound, st)
    else
      (Except.ok (),
       { st with rows := st.rows.filter (fun r => r.id != parseId idStr) })
  else (Except.error ApiError.invalidId, st)

/-! ### Client-side HTML escaping (src/app/public/script.js) -/

/-- One pass of JavaScript `String.prototype.replace(/c/g, rep)` for a
single-character pattern `c`: every occurrence of `c` becomes `rep`. -/
def replaceAllCharL (c : Char) (rep : List Char) : List Char → List Char
  | [] => []
  | x :: xs => (if x = c then rep else [x]) ++ replaceAllCharL c rep xs

/-- `escapeHtml` (script.js lines 108-115): the five chained global
replaces, in source order. -/
def escapeHtml (s : String) : String :=
  String.mk (replaceAllCharL (Char.ofNat 39) "&#039;".data
    (replaceAllCharL (Char.ofNat 34) "&quot;".data
      (replaceAllCharL '>' "&gt;".data
        (replaceAllCharL '<' "&lt;".data
          (replaceAllCharL '&' "&amp;".data s.data)))))

/-- The task-title cell of `renderTasks` (script.js line 98): the stored
title reaches the markup only through `escapeHtml`. -/
def taskTitleDiv (t : Task) : String :=
  "<div class=\"task-title " ++ (if t.completed then "completed" else "") ++
    "\">" ++ escapeHtml t.title ++ "</div>"

/-! ### Concrete instants used by the scenario theorems -/

def time0 : DateTime := ⟨2024, 1, 1, 10, 0, 0, 0⟩

def time1 : DateTime := ⟨2024, 1, 1, 10, 0, 1, 0⟩

def time2 : DateTime := ⟨2024, 1, 1, 10, 0, 2, 0⟩

/-! ### Helper lemmas -/

/-- Characterisation of the title validation on string inputs: it accepts
exactly the strings of raw (untrimmed) length 1 to 200 with neither
forbidden substring. -/
theorem validate_some_iff (s : String) :
    validateTaskTitle (some s) = true ↔
      (1 ≤ s.length ∧ s.length ≤ 200 ∧ includes s "<script" = false ∧
        includes s "javascript:" = false) := by
  simp only [validateTaskTitle]
  split_ifs with h0 h1 h2
  · subst h0; decide
  · constructor
    · intro h; exact h.elim
    · rintro ⟨ha, hb, -, -⟩
      exact absurd h1 (by omega)
  · constructor
    · intro h; exact h.elim
    · rintro ⟨-, -, hc, hd⟩
      rcases h2 with h2 | h2
      · rw [h2] at hc; exact Bool.noConfusion hc
      · rw [h2] at hd; exact Bool.noConfusion hd
  · constructor
    · intro _
      refine ⟨by omega, by omega, ?_, ?_⟩
      · cases hc : includes s "<script"
        · rfl
        · exact absurd (Or.inl hc) h2
      · cases hd : includes s "javascript:"
        · rfl
        · exact absurd (Or.inr hd) h2
    · intro _; trivial

/-- Every character of `replaceAllCharL c rep l` comes from the
replacement text or is a character of `l` other than `c`. -/
theorem mem_replaceAllCharL (x c : Char) (rep : List Char) :
    ∀ l : List Char, x ∈ replaceAllCharL c rep l → x ∈ rep ∨ (x ∈ l ∧ x ≠ c) := by
  intro l
  induction l with
  | nil => intro h; simp [replaceAllCharL] at h
  | cons y ys ih =>
    intro h
    simp only [replaceAllCharL] at h
    rcases List.mem_append.mp h with h1 | h1
    · by_cases hyc : y = c
      · rw [if_pos hyc] at h1; exact Or.inl h1
      · rw [if_neg hyc] at h1
        have hx : x = y := by simpa using h1
        subst hx
        exact Or.inr ⟨List.mem_cons_self _ _, hyc⟩
    · rcases ih h1 with h2 | ⟨h3, h4⟩
      · exact Or.inl h2
      · exact Or.inr ⟨List.mem_cons_of_mem _ h3, h4⟩

/-- A character that is not in the replacement text and survives a
replacement pass was already in the input. -/
theorem mem_of_mem_replaceAllCharL (x c : Char) (rep l : List Char)
    (hx : x ∉ rep) (h : x ∈ replaceAllCharL c rep l) : x ∈ l :=
  ((mem_replaceAllCharL x c rep l h).resolve_left hx).1

/-- A replacement pass for `c` whose replacement text avoids `c` leaves no
occurrence of `c`. -/
theorem not_mem_replaceAllCharL_self (c : Char) (rep l : List Char)
    (hrep : c ∉ rep) : c ∉ replaceAllCharL c rep l := by
  intro h
  rcases mem_replaceAllCharL c c rep l h with h1 | ⟨-, h2⟩
  · exact hrep h1
  · exact h2 rfl

/-- Toggle on a malformed id: the format check fires first. -/
theorem toggle_invalid (st : ServerState) (idStr : String)
    (hd : isDigitString idStr = false) :
    toggle st idStr = (Except.error ApiError.invalidId, st) := by
  rw [toggle, if_neg (by rw [hd]; exact Bool.false_ne_true)]

/-- Toggle on a well-formed id matching no row. -/
theorem toggle_notFound (st : ServerState) (idStr : String)
    (hd : isDigitString idStr = true)
    (h : (st.rows.filter (fun r => r.id == parseId idStr)).length = 0) :
    toggle st idStr = (Except.error ApiError.notFound, st) := by
  rw [toggle, if_pos hd, if_pos h]

/-- Toggle on a well-formed id matching at least one row. -/
theorem toggle_found (st : ServerState) (idStr : String)
    (hd : isDigitString idStr = true)
    (h : ¬ (st.rows.filter (fun r => r.id == parseId idStr)).length = 0) :
    toggle st idStr =
      (Except.ok (),
       { st with rows := st.rows.map (fun r =>
           if r.id == parseId idStr then { r with completed := !r.completed }
           else r) }) := by
  rw [toggle, if_pos hd, if_neg h]

/-- Delete on a malformed id: the format check fires first. -/
theorem deleteTask_invalid (st : ServerState) (idStr : String)
    (hd : isDigitString idStr = false) :
    deleteTask st idStr = (Except.error ApiError.invalidId, st) := by
  rw [deleteTask, if_neg (by rw [hd]; exact Bool.false_ne_true)]

/-- Delete on a well-formed id matching no row. -/
theorem deleteTask_notFound (st : ServerState) (idStr : String)
    (hd : isDigitString idStr = true)
    (h : (st.rows.filter (fun r => r.id == parseId idStr)).length = 0) :
    deleteTask st idStr = (Except.error ApiError.notFound, st) := by
  rw [deleteTask, if_pos hd, if_pos h]

/-- Delete on a well-formed id matching at least one row. -/
theorem deleteTask_found (st : ServerState) (idStr : String)
    (hd : isDigitString idStr = true)
    (h : ¬ (st.rows.filter (fun r => r.id == parseId idStr)).length = 0) :
    deleteTask st idStr =
      (Except.ok (),
       { st with rows := st.rows.filter (fun r => r.id != parseId idStr) }) := by
  rw [deleteTask, if_pos hd, if_neg h]

/-! ### The claims -/

/-- C1: the claim says Create("") and Create(" ") both fail with a
validation error and add no task.  The code rejects "" but accepts the
single space: `validateTaskTitle` checks the raw length (1, in range)
and only the handler trims afterwards, so the request succeeds and a task
whose stored title is the empty string is added (List() grows to length 1).
This theorem evaluates the code at the failing input. -/
theorem claim_c1_code_bug :
    validateTaskTitle (some "") = false ∧
    validateTaskTitle (some " ") = true ∧
    (create initialState (some " ") time0 time0).1 =
      Except.ok { id := 1, title := "", completed := false,
                  created_at := "2024-01-01T10:00:00.000Z" } ∧
    (create initialState (some " ") time0 time0).2.rows.map (fun r => r.title) =
      [""] ∧
    (listTasks (create initialState (some " ") time0 time0).2).length = 1 := by
  decide

set_option maxRecDepth 100000 in
/-- C2 counterexample: the claim says a title of trimmed length 200 is
accepted.  The title made of one space followed by 200 letters has trimmed
length 200 and no forbidden substring, yet Create rejects it, because the
code checks the raw length (201) before trimming. -/
theorem claim_c2_counterexample :
    (jsTrim (String.mk (' ' :: List.replicate 200 'a'))).length = 200 ∧
    includes (String.mk (' ' :: List.replicate 200 'a')) "<script" = false ∧
    includes (String.mk (' ' :: List.replicate 200 'a')) "javascript:" = false ∧
    (create initialState (some (String.mk (' ' :: List.replicate 200 'a')))
        time0 time0).1 = Except.error ApiError.invalidTitle := by
  decide

/-- C2 amended: Create(title) succeeds iff title is a string whose raw
(untrimmed) length is between 1 and 200 and which contains neither
forbidden substring; on success the stored title is the trimmed form of
the input, appended as a fresh row; a non-string or absent title is
rejected. -/
theorem claim_c2_amended :
    ∀ (st : ServerState) (s : String) (tdb tjs : DateTime),
      ((create st (some s) tdb tjs).1.isOk = true ↔
        (1 ≤ s.length ∧ s.length ≤ 200 ∧ includes s "<script" = false ∧
          includes s "javascript:" = false)) ∧
      (∀ r : Task, (create st (some s) tdb tjs).1 = Except.ok r →
        r.title = jsTrim s ∧
        (create st (some s) tdb tjs).2.rows =
          st.rows ++ [{ id := st.nextId, title := jsTrim s, completed := false,
                        created_at := sqliteTimestamp tdb }]) ∧
      create st none tdb tjs = (Except.error ApiError.invalidTitle, st) := by
  intro st s tdb tjs
  refine ⟨?_, ?_, rfl⟩
  · rw [← validate_some_iff]
    cases hv : validateTaskTitle (some s) <;>
      simp [create, hv, Except.isOk, Except.toBool]
  · intro r hr
    cases hv : validateTaskTitle (some s)
    · rw [create] at hr
      simp [hv] at hr
    · rw [create] at hr
      simp only [hv, if_true] at hr
      rw [Except.ok.injEq] at hr
      subst hr
      exact ⟨rfl, by simp [create, hv]⟩

/-- C2 witness: a concrete accepted title, through the amended theorem. -/
theorem claim_c2_witness :
    (create initialState (some "Buy milk") time0 time0).1.isOk = true :=
  (claim_c2_amended initialState "Buy milk" time0 time0).1.mpr (by decide)

/-- C3: the claimed invariant says every stored title is non-empty and at
most 200 characters.  Creating the single-space title stores the empty
title, so the non-emptiness half fails on reachable states.  This theorem
evaluates the code at the failing input. -/
theorem claim_c3_code_bug :
    (create initialState (some " ") time0 time0).2.rows.map (fun r => r.title) =
      [""] ∧
    (create initialState (some " ") time0 time0).2.rows.all
      (fun r => decide (1 ≤ r.title.length)) = false := by
  decide

/-- C6: every string title containing the literal substring "<script" or
the literal substring "javascript:" is rejected by Create with a
validation error, leaving the store unchanged. -/
theorem claim_c6 :
    ∀ (st : ServerState) (s : String) (tdb tjs : DateTime),
      (includes s "<script" = true ∨ includes s "javascript:" = true) →
      create st (some s) tdb tjs = (Except.error ApiError.invalidTitle, st) := by
  intro st s tdb tjs h
  have hv : validateTaskTitle (some s) = false := by
    cases hb : validateTaskTitle (some s)
    · rfl
    · have hc := (validate_some_iff s).mp hb
      rcases h with h | h
      · rw [h] at hc; exact Bool.noConfusion hc.2.2.1
      · rw [h] at hc; exact Bool.noConfusion hc.2.2.2
  simp [create, hv]

/-- C6 witness: one title with each forbidden substring. -/
theorem claim_c6_witness :
    create initialState (some "hi <script>alert(1)</script>") time0 time0 =
      (Except.error ApiError.invalidTitle, initialState) ∧
    create initialState (some "javascript:alert(1)") time0 time0 =
      (Except.error ApiError.invalidTitle, initialState) :=
  ⟨claim_c6 initialState "hi <script>alert(1)</script>" time0 time0
      (Or.inl (by decide)),
   claim_c6 initialState "javascript:alert(1)" time0 time0
      (Or.inr (by decide))⟩

/-- C7: an id path parameter that is not a non-empty all-digit string makes
Toggle and Delete fail with the request-format error, before any lookup:
the state is returned untouched, and that error is distinct from the
not-found error. -/
theorem claim_c7 :
    ∀ (st : ServerState) (idStr : String),
      isDigitString idStr = false →
        toggle st idStr = (Except.error ApiError.invalidId, st) ∧
        deleteTask st idStr = (Except.error ApiError.invalidId, st) ∧
        ApiError.invalidId ≠ ApiError.notFound := by
  intro st idStr h
  exact ⟨toggle_invalid st idStr h, deleteTask_invalid st idStr h, by decide⟩

/-- C7 witness: the ids "abc" and "-1" from the spec examples. -/
theorem claim_c7_witness :
    (toggle initialState "abc" = (Except.error ApiError.invalidId, initialState) ∧
      deleteTask initialState "abc" = (Except.error ApiError.invalidId, initialState) ∧
      ApiError.invalidId ≠ ApiError.notFound) ∧
    (toggle initialState "-1" = (Except.error ApiError.invalidId, initialState) ∧
      deleteTask initialState "-1" = (Except.error ApiError.invalidId, initialState) ∧
      ApiError.invalidId ≠ ApiError.notFound) :=
  ⟨claim_c7 initialState "abc" (by decide), claim_c7 initialState "-1" (by decide)⟩

/-- C4 counterexample: the claim says ties on `created_at` are broken by
id descending.  Creating A, B, C within the same second (equal
`created_at`) yields List() order [A, B, C] with ids [1, 2, 3]: the query
orders by `created_at` alone and applies no id tie-break, so the promised
[C, B, A] does not hold. -/
theorem claim_c4_counterexample :
    (listTasks (create (create (create initialState (some "A") time0 time0).2
        (some "B") time0 time0).2 (some "C") time0 time0).2).map (fun r => r.title) =
      ["A", "B", "C"] ∧
    (listTasks (create (create (create initialState (some "A") time0 time0).2
        (some "B") time0 time0).2 (some "C") time0 time0).2).map (fun r => r.id) =
      [1, 2, 3] ∧
    (["A", "B", "C"] : List String) ≠ ["C", "B", "A"] := by
  decide

/-- C4 amended: List() returns exactly the stored tasks sorted by
`created_at` descending, but with no id tie-break (rows with equal
`created_at` keep table order); creating A then B then C yields [C, B, A]
when their `created_at` values are strictly increasing. -/
theorem claim_c4_amended :
    (∀ st : ServerState, List.Sorted byCreatedAtDesc (listTasks st)) ∧
    (∀ st : ServerState, List.Perm (listTasks st) st.rows) ∧
    (listTasks (create (create (create initialState (some "A") time0 time0).2
        (some "B") time1 time1).2 (some "C") time2 time2).2).map (fun r => r.title) =
      ["C", "B", "A"] := by
  exact ⟨fun st => List.sorted_insertionSort byCreatedAtDesc st.rows,
         fun st => List.perm_insertionSort byCreatedAtDesc st.rows, by decide⟩

/-- C5 counterexample: the claim says the created task is returned exactly
as persisted and that `created_at` in every task response is ISO-8601.
The POST handler instead answers with a fresh `new Date().toISOString()`
value, while the row List() later reports carries SQLite
`CURRENT_TIMESTAMP` text ("YYYY-MM-DD HH:MM:SS", not ISO-8601): even at
the same instant the two strings differ. -/
theorem claim_c5_counterexample :
    create initialState (some "Buy milk") time0 time0 =
      (Except.ok { id := 1, title := "Buy milk", completed := false,
                   created_at := "2024-01-01T10:00:00.000Z" },
       { rows := [{ id := 1, title := "Buy milk", completed := false,
                    created_at := "2024-01-01 10:00:00" }], nextId := 2 }) ∧
    (listTasks (create initialState (some "Buy milk") time0 time0).2).map
        (fun r => r.created_at) = ["2024-01-01 10:00:00"] ∧
    ("2024-01-01T10:00:00.000Z" : String) ≠ "2024-01-01 10:00:00" := by
  decide

/-- C5 amended: on success Create returns id, title and completed matching
the stored row (the fresh id, the trimmed title, false), but its
`created_at` field is the response-time ISO-8601 string, while the row is
stored, and later listed, with the SQLite CURRENT_TIMESTAMP text. -/
theorem claim_c5_amended :
    ∀ (st : ServerState) (s : String) (tdb tjs : DateTime) (r : Task),
      (create st (some s) tdb tjs).1 = Except.ok r →
        r.id = st.nextId ∧ r.title = jsTrim s ∧ r.completed = false ∧
        r.created_at = toISOString tjs ∧
        (create st (some s) tdb tjs).2.rows =
          st.rows ++ [{ id := st.nextId, title := jsTrim s, completed := false,
                        created_at := sqliteTimestamp tdb }] := by
  intro st s tdb tjs r hr
  cases hv : validateTaskTitle (some s)
  · rw [create] at hr
    simp [hv] at hr
  · rw [create] at hr
    simp only [hv, if_true] at hr
    rw [Except.ok.injEq] at hr
    subst hr
    exact ⟨rfl, rfl, rfl, rfl, by simp [create, hv]⟩

/-- C5 witness: a concrete successful Create, through the amended
theorem. -/
theorem claim_c5_witness :
    ({ id := 1, title := "X", completed := false,
       created_at := "2024-01-01T10:00:01.000Z" } : Task).created_at =
      toISOString time1 ∧
    (create initialState (some "X") time0 time1).2.rows =
      initialState.rows ++ [{ id := initialState.nextId, title := jsTrim "X",
                              completed := false,
                              created_at := sqliteTimestamp time0 }] := by
  have h := claim_c5_amended initialState "X" time0 time1
    { id := 1, title := "X", completed := false,
      created_at := "2024-01-01T10:00:01.000Z" } (by decide)
  exact ⟨h.2.2.2.1, h.2.2.2.2⟩

/-- C8: for a well-formed id matching no stored task, Toggle and Delete
fail with not-found and leave the state untouched; and once a Delete
succeeds, no task with that id remains and deleting it again fails with
not-found. -/
theorem claim_c8 :
    (∀ (st : ServerState) (idStr : String),
      isDigitString idStr = true →
      st.rows.all (fun r => r.id != parseId idStr) = true →
        toggle st idStr = (Except.error ApiError.notFound, st) ∧
        deleteTask st idStr = (Except.error ApiError.notFound, st)) ∧
    (∀ (st : ServerState) (idStr : String),
      isDigitString idStr = true →
      (deleteTask st idStr).1 = Except.ok () →
        (deleteTask st idStr).2.rows.all (fun r => r.id != parseId idStr) = true ∧
        (deleteTask (deleteTask st idStr).2 idStr).1 =
          Except.error ApiError.notFound) := by
  constructor
  · intro st idStr hd hall
    have hfil : st.rows.filter (fun r => r.id == parseId idStr) = [] := by
      rw [List.filter_eq_nil_iff]
      intro a ha
      have h2 := List.all_eq_true.mp hall a ha
      simpa using h2
    have hlen : (st.rows.filter (fun r => r.id == parseId idStr)).length = 0 := by
      rw [hfil]; rfl
    exact ⟨toggle_notFound st idStr hd hlen, deleteTask_notFound st idStr hd hlen⟩
  · intro st idStr hd hok
    by_cases h0 : (st.rows.filter (fun r => r.id == parseId idStr)).length = 0
    · rw [deleteTask_notFound st idStr hd h0] at hok
      exact Except.noConfusion hok
    · have hrows : (deleteTask st idStr).2.rows =
          st.rows.filter (fun r => r.id != parseId idStr) := by
        rw [deleteTask_found st idStr hd h0]
      have hall2 : (deleteTask st idStr).2.rows.all
          (fun r => r.id != parseId idStr) = true := by
        rw [hrows, List.all_eq_true]
        intro a ha
        exact (List.mem_filter.mp ha).2
      refine ⟨hall2, ?_⟩
      have hfil2 : (deleteTask st idStr).2.rows.filter
          (fun r => r.id == parseId idStr) = [] := by
        rw [List.filter_eq_nil_iff]
        intro a ha
        have hne := List.all_eq_true.mp hall2 a ha
        simpa using hne
      have hlen2 : ((deleteTask st idStr).2.rows.filter
          (fun r => r.id == parseId idStr)).length = 0 := by
        rw [hfil2]; rfl
      rw [deleteTask_notFound (deleteTask st idStr).2 idStr hd hlen2]

/-- C8 witness: on a store holding only task 1, id 7 is not found by
either route, and deleting task 1 removes it so the second delete is
not-found. -/
theorem claim_c8_witness :
    (toggle (create initialState (some "X") time0 time0).2 "7" =
        (Except.error ApiError.notFound,
          (create initialState (some "X") time0 time0).2) ∧
      deleteTask (create initialState (some "X") time0 time0).2 "7" =
        (Except.error ApiError.notFound,
          (create initialState (some "X") time0 time0).2)) ∧
    ((deleteTask (create initialState (some "X") time0 time0).2 "1").2.rows.all
        (fun r => r.id != parseId "1") = true ∧
      (deleteTask (deleteTask (create initialState (some "X") time0 time0).2
          "1").2 "1").1 = Except.error ApiError.notFound) :=
  ⟨claim_c8.1 (create initialState (some "X") time0 time0).2 "7"
      (by decide) (by decide),
   claim_c8.2 (create initialState (some "X") time0 time0).2 "1"
      (by decide) (by decide)⟩

/-- C9: toggling an existing id succeeds and negates exactly that task's
completed flag, and toggling twice restores the whole state; a freshly
created task starts with completed = false, so after Create the first
toggle yields true and the second yields false (checked end to end on
"Buy milk"). -/
theorem claim_c9 :
    (∀ (st : ServerState) (idStr : String),
      isDigitString idStr = true →
      st.rows.any (fun r => r.id == parseId idStr) = true →
        (toggle st idStr).1 = Except.ok () ∧
        (∀ r ∈ st.rows, r.id = parseId idStr →
          { r with completed := !r.completed } ∈ (toggle st idStr).2.rows) ∧
        (toggle (toggle st idStr).2 idStr).2 = st) ∧
    (∀ (st : ServerState) (title : Option String) (tdb tjs : DateTime) (r : Task),
      (create st title tdb tjs).1 = Except.ok r → r.completed = false) ∧
    ((toggle (create initialState (some "Buy milk") time0 time0).2 "1").2.rows.map
        (fun r => r.completed) = [true] ∧
      (toggle (toggle (create initialState (some "Buy milk") time0 time0).2
          "1").2 "1").2.rows.map (fun r => r.completed) = [false]) := by
  refine ⟨?_, ?_, by decide⟩
  · intro st idStr hd hany
    have hne : st.rows.filter (fun r => r.id == parseId idStr) ≠ [] := by
      rcases List.any_eq_true.mp hany with ⟨a, ha, hp⟩
      exact List.ne_nil_of_mem (List.mem_filter.mpr ⟨ha, hp⟩)
    have h0f : ¬ (st.rows.filter (fun r => r.id == parseId idStr)).length = 0 := by
      simpa [List.length_eq_zero] using hne
    have hstep := toggle_found st idStr hd h0f
    have hrows : (toggle st idStr).2.rows = st.rows.map (fun r =>
        if r.id == parseId idStr then { r with completed := !r.completed }
        else r) := by
      rw [hstep]
    have hnext : (toggle st idStr).2.nextId = st.nextId := by
      rw [hstep]
    have hid2 : ∀ r : Task,
        ((if r.id == parseId idStr then { r with completed := !r.completed }
          else r).id == parseId idStr) = (r.id == parseId idStr) := by
      intro r
      by_cases h : (r.id == parseId idStr) = true
      · simp [h]
      · rw [Bool.not_eq_true] at h; simp [h]
    refine ⟨by rw [hstep], ?_, ?_⟩
    · intro r hr hid
      rw [hrows]
      have heq : (if r.id == parseId idStr then { r with completed := !r.completed }
          else r) = { r with completed := !r.completed } := by
        simp [hid]
      exact heq ▸ List.mem_map_of_mem _ hr
    · have hf2 : (toggle st idStr).2.rows.filter
          (fun r => r.id == parseId idStr) ≠ [] := by
        rw [hrows, List.filter_map]
        have hcomp : ((fun r : Task => r.id == parseId idStr) ∘ (fun r =>
            if r.id == parseId idStr then { r with completed := !r.completed }
            else r)) = (fun r : Task => r.id == parseId idStr) := by
          funext a
          exact hid2 a
        rw [hcomp]
        intro hmap
        exact hne (List.map_eq_nil_iff.mp hmap)
      have h0f2 : ¬ ((toggle st idStr).2.rows.filter
          (fun r => r.id == parseId idStr)).length = 0 := by
        simpa [List.length_eq_zero] using hf2
      have hstep2 := toggle_found (toggle st idStr).2 idStr hd h0f2
      have hrows2 : (toggle (toggle st idStr).2 idStr).2.rows
          = (toggle st idStr).2.rows.map (fun r =>
              if r.id == parseId idStr then { r with completed := !r.completed }
              else r) := by
        rw [hstep2]
      have hrr : (toggle (toggle st idStr).2 idStr).2.rows = st.rows := by
        rw [hrows2, hrows, List.map_map]
        have hff : ((fun r : Task =>
            if r.id == parseId idStr then { r with completed := !r.completed }
            else r) ∘ (fun r : Task =>
            if r.id == parseId idStr then { r with completed := !r.completed }
            else r)) = id := by
          funext a
          by_cases h : (a.id == parseId idStr) = true
          · simp [Function.comp, h, Bool.not_not]
          · rw [Bool.not_eq_true] at h
            simp [Function.comp, h]
        rw [hff, List.map_id]
      have hnn : (toggle (toggle st idStr).2 idStr).2.nextId = st.nextId := by
        rw [hstep2, hnext]
      calc (toggle (toggle st idStr).2 idStr).2
          = { rows := (toggle (toggle st idStr).2 idStr).2.rows,
              nextId := (toggle (toggle st idStr).2 idStr).2.nextId } := rfl
        _ = { rows := st.rows, nextId := st.nextId } := by rw [hrr, hnn]
        _ = st := rfl
  · intro st title tdb tjs r hr
    cases title with
    | none =>
      rw [create] at hr
      exact Except.noConfusion hr
    | some s =>
      cases hv : validateTaskTitle (some s)
      · rw [create] at hr
        simp [hv] at hr
      · rw [create] at hr
        simp only [hv, if_true] at hr
        rw [Except.ok.injEq] at hr
        rw [← hr]

/-- C9 witness: the end-to-end "Buy milk" toggle pair, through the general
statement. -/
theorem claim_c9_witness :
    (toggle (create initialState (some "Buy milk") time0 time0).2 "1").1 =
      Except.ok () :=
  (claim_c9.1 (create initialState (some "Buy milk") time0 time0).2 "1"
    (by decide) (by decide)).1

/-- C10: escapeHtml never leaves a raw angle bracket, double quote or
single quote in its output (characters 60, 62, 34, 39), and renderTasks
interpolates the task title into the title cell only through escapeHtml,
so a stored title never reaches the markup unescaped. -/
theorem claim_c10 :
    ∀ s : String,
      ('<' ∉ (escapeHtml s).data) ∧
      ('>' ∉ (escapeHtml s).data) ∧
      (Char.ofNat 34 ∉ (escapeHtml s).data) ∧
      (Char.ofNat 39 ∉ (escapeHtml s).data) ∧
      ∀ t : Task, taskTitleDiv t =
        "<div class=\"task-title " ++
          (if t.completed then "completed" else "") ++ "\">" ++
          escapeHtml t.title ++ "</div>" := by
  intro s
  refine ⟨?_, ?_, ?_, ?_, fun t => rfl⟩
  · intro h
    dsimp only [escapeHtml] at h
    have h1 := mem_of_mem_replaceAllCharL _ _ _ _ (by decide) h
    have h2 := mem_of_mem_replaceAllCharL _ _ _ _ (by decide) h1
    have h3 := mem_of_mem_replaceAllCharL _ _ _ _ (by decide) h2
    exact not_mem_replaceAllCharL_self '<' "&lt;".data _ (by decide) h3
  · intro h
    dsimp only [escapeHtml] at h
    have h1 := mem_of_mem_replaceAllCharL _ _ _ _ (by decide) h
    have h2 := mem_of_mem_replaceAllCharL _ _ _ _ (by decide) h1
    exact not_mem_replaceAllCharL_self '>' "&gt;".data _ (by decide) h2
  · intro h
    dsimp only [escapeHtml] at h
    have h1 := mem_of_mem_replaceAllCharL _ _ _ _ (by decide) h
    exact not_mem_replaceAllCharL_self (Char.ofNat 34) "&quot;".data _
      (by decide) h1
  · intro h
    dsimp only [escapeHtml] at h
    exact not_mem_replaceAllCharL_self (Char.ofNat 39) "&#039;".data _
      (by decide) h

/-- C10 witness: a concrete hostile title. -/
theorem claim_c10_witness :
    ('<' ∉ (escapeHtml "a<b\"c").data) ∧
    (Char.ofNat 39 ∉ (escapeHtml "a<b\"c").data) :=
  ⟨(claim_c10 "a<b\"c").1, (claim_c10 "a<b\"c").2.2.2.1⟩

end TaskManager
